import Mathlib

/-!
# Verification of the fmod-rs / fmod-oxide handle and marshaling layer

A shallow embedding in Lean 4 of the safety-wrapper code of the repository
(`fmod-oxide` and `fmod-rs` crates): the result mapper, the two-phase
string/list retrieval protocol, the bank loading-state queries, and the
release / userdata-table interactions of `Geometry`, `Dsp` and `Bank`.

Native engine calls (FMOD C ABI) are modelled as stub parameters: each
wrapper operation takes a record describing what the native calls would
return, and the Lean definition mirrors the Rust control flow around those
calls statement by statement.  `debug_assert_eq!` is modelled by an explicit
`debugAssertions : Bool` parameter (Rust compiles the check only under
`cfg(debug_assertions)`); a firing assertion is the `panic` outcome.
-/

namespace Fmod

/-- Native status codes (`FMOD_RESULT` from the `fmod-sys` crate, which is
not under the sources provided; the variants used by the wrapper code are
`FMOD_OK`, `FMOD_ERR_TRUNCATED`, `FMOD_ERR_DSP_INUSE` and the remaining
error codes, represented here by a few representative members). -/
inductive FMOD_RESULT where
  | ok
  | errTruncated
  | errDspInuse
  | errInvalidHandle
  | errEventNotfound
  | errMemory
  deriving DecidableEq, Repr

/-- Modelled from the spec: the Result/Error Mapper (`to_result` in the
`fmod-sys` crate, not under the sources provided) — "given a native status
code, classify it as Success (proceed) or Failure(ErrorKind)";
native-reported failures are surfaced verbatim as a typed error value. -/
def FMOD_RESULT.to_result (r : FMOD_RESULT) : Except FMOD_RESULT Unit :=
  if r = .ok then .ok () else .error r

/-- Modelled from the spec: the `to_error` form of the Result/Error Mapper
(`fmod-sys`, not under the sources provided) — `none` on the success code,
`some code` on any other code, letting call sites distinguish the expected
truncation signal from any other failure. -/
def FMOD_RESULT.to_error (r : FMOD_RESULT) : Option FMOD_RESULT :=
  if r = .ok then none else some r

/-- The observable outcome of a wrapper operation: a returned success value,
a returned typed error, or a panic (a firing assertion). -/
inductive Outcome (α : Type) where
  | ok (a : α)
  | err (e : FMOD_RESULT)
  | panic
  deriving DecidableEq, Repr

/-- Which of the two native calls of a two-phase query an operation
performed, in order. -/
inductive PhaseCall where
  | discoverCall
  | fillCall
  deriving DecidableEq, Repr

/-- Stub for the native side of a two-phase string query
(e.g. `FMOD_Studio_Bank_GetPath`): the status code and out-length of the
discovery call (null buffer, zero capacity), and the status code, written
bytes and echoed out-length of the fill call (buffer of the discovered
size). -/
structure StringNative where
  discoverResult : FMOD_RESULT
  discoverLen : Nat
  fillResult : FMOD_RESULT
  fillBytes : List Nat
  fillLen : Nat
  deriving Repr

/-- Writing `written` into the front of buffer `buf`: the native call fills
the caller-allocated buffer in place, and the buffer keeps its length. -/
def writeInto (buf written : List Nat) : List Nat :=
  written.take buf.length ++ buf.drop written.length

/-- The second half of every two-phase string getter, after the discovery
phase decided to proceed: `let mut path = vec![0u8; string_len]`, the fill
call checked with `to_result()?`,
`debug_assert_eq!(string_len, expected_string_len)`, and the buffer
returned as the string via `String::from_utf8_unchecked` (no byte
stripped). -/
def stringFillPhase (n : StringNative) (debugAssertions : Bool) :
    Outcome (List Nat) × List PhaseCall :=
  let path := List.replicate n.discoverLen 0
  match n.fillResult.to_result with
  | .error e => (.err e, [.discoverCall, .fillCall])
  | .ok _ =>
    if debugAssertions ∧ ¬n.discoverLen = n.fillLen then
      (.panic, [.discoverCall, .fillCall])
    else
      (.ok (writeInto path n.fillBytes), [.discoverCall, .fillCall])

/-- The discovery phase shared by every two-phase string getter: call the
native operation with a null buffer and zero capacity, take `to_error()` of
the status; `Some(error) if error != FMOD_ERR_TRUNCATED` returns that error
immediately, anything else falls through to the fill phase. -/
def twoPhaseString (n : StringNative) (debugAssertions : Bool) :
    Outcome (List Nat) × List PhaseCall :=
  match n.discoverResult.to_error with
  | some error =>
    if error ≠ .errTruncated then (.err error, [.discoverCall])
    else stringFillPhase n debugAssertions
  | none => stringFillPhase n debugAssertions

/-- Embedding of `Bank::get_path` (src/fmod-oxide/src/studio/bank.rs lines 280–319):
the two-phase string protocol around `FMOD_Studio_Bank_GetPath`. -/
def Bank.get_path (n : StringNative) (debugAssertions : Bool) :
    Outcome (List Nat) × List PhaseCall :=
  twoPhaseString n debugAssertions

/-- Embedding of `System::lookup_path` (src/fmod-oxide/src/studio/system.rs lines
1034–1079): the two-phase string protocol around
`FMOD_Studio_System_LookupPath`. -/
def System.lookup_path (n : StringNative) (debugAssertions : Bool) :
    Outcome (List Nat) × List PhaseCall :=
  twoPhaseString n debugAssertions

/-- Embedding of `EventDescription::get_path` (src/fmod-rs/src/studio/event/description.rs
lines 532–575): the two-phase string protocol around
`FMOD_Studio_EventDescription_GetPath`. -/
def EventDescription.get_path (n : StringNative) (debugAssertions : Bool) :
    Outcome (List Nat) × List PhaseCall :=
  twoPhaseString n debugAssertions

/-- Embedding of `System::get_parameter_label_by_name` (src/fmod-oxide/src/studio/system.rs
lines 728–779): the two-phase string protocol around
`FMOD_Studio_System_GetParameterLabelByName`. -/
def System.get_parameter_label_by_name (n : StringNative)
    (debugAssertions : Bool) : Outcome (List Nat) × List PhaseCall :=
  twoPhaseString n debugAssertions

/-- Embedding of `System::get_parameter_label_by_id` (src/fmod-oxide/src/studio/system.rs
lines 782–829): the two-phase string protocol around
`FMOD_Studio_System_GetParameterLabelByID`. -/
def System.get_parameter_label_by_id (n : StringNative)
    (debugAssertions : Bool) : Outcome (List Nat) × List PhaseCall :=
  twoPhaseString n debugAssertions

/-- Embedding of `EventDescription::get_parameter_label_by_name`
(src/fmod-rs/src/studio/event/description.rs lines 305–356): the two-phase
string protocol around
`FMOD_Studio_EventDescription_GetParameterLabelByName`. -/
def EventDescription.get_parameter_label_by_name (n : StringNative)
    (debugAssertions : Bool) : Outcome (List Nat) × List PhaseCall :=
  twoPhaseString n debugAssertions

/-- Embedding of `EventDescription::get_parameter_label_by_id`
(src/fmod-rs/src/studio/event/description.rs lines 359–410): the two-phase
string protocol around
`FMOD_Studio_EventDescription_GetParameterLabelByID`. -/
def EventDescription.get_parameter_label_by_id (n : StringNative)
    (debugAssertions : Bool) : Outcome (List Nat) × List PhaseCall :=
  twoPhaseString n debugAssertions

/-- A GUID out-parameter value, abstracted to a `Nat` identifier. -/
abbrev Guid := Nat

/-- Embedding of `Bank::get_string_info` (src/fmod-oxide/src/studio/bank.rs lines
179–229): the same two-phase string protocol around
`FMOD_Studio_Bank_GetStringInfo`, additionally returning the GUID the fill
call writes into the zero-initialised `MaybeUninit` out-parameter. -/
def Bank.get_string_info (n : StringNative) (fillGuid : Guid)
    (debugAssertions : Bool) : Outcome (Guid × List Nat) × List PhaseCall :=
  match twoPhaseString n debugAssertions with
  | (.ok path, calls) => (.ok (fillGuid, path), calls)
  | (.err e, calls) => (.err e, calls)
  | (.panic, calls) => (.panic, calls)

/-! ## List-valued two-phase queries on a Bank -/

/-- Stub for one native count query (e.g. `FMOD_Studio_Bank_GetVCACount`):
the status code and the count written to the out-parameter. -/
structure CountCall where
  result : FMOD_RESULT
  value : Nat
  deriving Repr

/-- Stub for one native list fill call (e.g. `FMOD_Studio_Bank_GetVCAList`):
the status code, the handles written into the caller's buffer, and the
count written to the out-parameter. -/
structure FillCall where
  result : FMOD_RESULT
  items : List Nat
  count : Nat
  deriving Repr

/-- Stub for the native side of a `Bank`'s count and list queries; handles
are abstracted to `Nat` values (`0` is the null pointer the wrapper
pre-fills its buffers with). -/
structure BankNative where
  getBusCount : CountCall
  getEventCount : CountCall
  getVCACount : CountCall
  getBusList : FillCall
  getEventList : FillCall
  getVCAList : FillCall
  deriving Repr

/-- Embedding of `Bank::bus_count` (src/fmod-oxide/src/studio/bank.rs lines 91–97):
`FMOD_Studio_Bank_GetBusCount` checked with `to_result()?`, then the
out-parameter returned. -/
def Bank.bus_count (b : BankNative) : Except FMOD_RESULT Nat :=
  match b.getBusCount.result.to_result with
  | .error e => .error e
  | .ok _ => .ok b.getBusCount.value

/-- Embedding of `Bank::event_count` (src/fmod-oxide/src/studio/bank.rs lines 130–136):
`FMOD_Studio_Bank_GetEventCount` checked with `to_result()?`, then the
out-parameter returned. -/
def Bank.event_count (b : BankNative) : Except FMOD_RESULT Nat :=
  match b.getEventCount.result.to_result with
  | .error e => .error e
  | .ok _ => .ok b.getEventCount.value

/-- Embedding of `Bank::vca_count` (src/fmod-oxide/src/studio/bank.rs lines 232–238):
`FMOD_Studio_Bank_GetVCACount` checked with `to_result()?`, then the
out-parameter returned. -/
def Bank.vca_count (b : BankNative) : Except FMOD_RESULT Nat :=
  match b.getVCACount.result.to_result with
  | .error e => .error e
  | .ok _ => .ok b.getVCACount.value

/-- Result of a list getter: the outcome together with the capacity the
wrapper passed to the native fill call (`none` when the fill call was never
invoked). -/
structure ListQueryRun where
  outcome : Outcome (List Nat)
  fillCapacity : Option Nat
  deriving Repr

/-- The shared tail of the bank list getters: allocate
`vec![null; expected_count]`, invoke the fill call with the buffer's
capacity, check `to_result()?`, `debug_assert_eq!(count, expected_count)`,
and return the buffer. -/
def listFillPhase (fill : FillCall) (expected_count : Nat)
    (debugAssertions : Bool) : ListQueryRun :=
  let list := List.replicate expected_count 0
  match fill.result.to_result with
  | .error e => ⟨.err e, some expected_count⟩
  | .ok _ =>
    if debugAssertions ∧ ¬fill.count = expected_count then
      ⟨.panic, some expected_count⟩
    else
      ⟨.ok (writeInto list fill.items), some expected_count⟩

/-- Embedding of `Bank::get_bus_list` (src/fmod-oxide/src/studio/bank.rs lines 100–124):
`let expected_count = self.bus_count()?`, then the fill phase around
`FMOD_Studio_Bank_GetBusList`. -/
def Bank.get_bus_list (b : BankNative) (debugAssertions : Bool) :
    ListQueryRun :=
  match Bank.bus_count b with
  | .error e => ⟨.err e, none⟩
  | .ok expected_count => listFillPhase b.getBusList expected_count debugAssertions

/-- Embedding of `Bank::get_event_list` (src/fmod-oxide/src/studio/bank.rs lines
142–164): `let expected_count = self.event_count()?`, then the fill phase
around `FMOD_Studio_Bank_GetEventList`. -/
def Bank.get_event_list (b : BankNative) (debugAssertions : Bool) :
    ListQueryRun :=
  match Bank.event_count b with
  | .error e => ⟨.err e, none⟩
  | .ok expected_count => listFillPhase b.getEventList expected_count debugAssertions

/-- Embedding of `Bank::get_vca_list` (src/fmod-oxide/src/studio/bank.rs lines 241–265):
the source reads `let expected_count = self.event_count()?` — the EVENT
count, not `self.vca_count()` — then runs the fill phase around
`FMOD_Studio_Bank_GetVCAList` with that capacity. -/
def Bank.get_vca_list (b : BankNative) (debugAssertions : Bool) :
    ListQueryRun :=
  match Bank.event_count b with
  | .error e => ⟨.err e, none⟩
  | .ok expected_count => listFillPhase b.getVCAList expected_count debugAssertions

/-! ## Loading states -/

/-- Embedding of `LoadingState` (src/fmod-rs/src/studio/mod.rs lines 30–36; the same
enumeration exists in fmod-oxide's studio module). -/
inductive LoadingState where
  | unloading
  | unloaded
  | loading
  | loaded
  | error
  deriving DecidableEq, Repr

/-- The raw `FMOD_STUDIO_LOADING_STATE` value of each state (the constants
are bindgen output of the `fmod-sys` crate, not under the sources provided:
`UNLOADING = 0`, `UNLOADED = 1`, `LOADING = 2`, `LOADED = 3`, `ERROR = 4`). -/
def LoadingState.toRaw : LoadingState → Nat
  | .unloading => 0
  | .unloaded => 1
  | .loading => 2
  | .loaded => 3
  | .error => 4

/-- Result of the fmod-rs `From` conversion: either a state, or a panic
carrying the offending raw value. -/
inductive FromFFIResult where
  | ok (s : LoadingState)
  | panicked (value : Nat)
  deriving DecidableEq, Repr

/-- Embedding of `From<FMOD_STUDIO_LOADING_STATE> for LoadingState`
(src/fmod-rs/src/studio/mod.rs lines 38–52): match on the five raw
constants; any other value hits the final match arm, which panics with the
message "invalid loading state" and the offending value. -/
def LoadingState.from_ffi (value : Nat) : FromFFIResult :=
  if value = 0 then .ok .unloading
  else if value = 1 then .ok .unloaded
  else if value = 2 then .ok .loading
  else if value = 3 then .ok .loaded
  else if value = 4 then .ok .error
  else .panicked value

/-- Modelled from the spec: `LoadingState::try_from_ffi` (fmod-oxide's
studio module, which is not under the sources provided; only its callers
are).  Decodes a raw loading state; a native error code accompanying the
query is surfaced verbatim ("the wrapper surfaces the underlying failure
code", §4.4). An out-of-range raw value — outside both the spec and the
claims — is mapped to an error rather than a panic. -/
def LoadingState.try_from_ffi (value : Nat) (error : Option FMOD_RESULT) :
    Except FMOD_RESULT LoadingState :=
  match error with
  | some e => .error e
  | none =>
    if value = 0 then .ok .unloading
    else if value = 1 then .ok .unloaded
    else if value = 2 then .ok .loading
    else if value = 3 then .ok .loaded
    else if value = 4 then .ok .error
    else .error .errMemory

/-- Modelled from the spec: the native engine's per-bank loading machinery
(§4.4) — "Two independently-tracked instances of this machine apply to a
Bank: one for the bank's metadata load state, one for its sample-data load
state". -/
structure BankLoadNative where
  metadataState : LoadingState
  sampleState : LoadingState
  deriving Repr

/-- Modelled from the spec: `FMOD_Studio_Bank_GetLoadingState` (native
engine, external) reports the bank's metadata load machine; the status
code accompanying a non-`Error` state is success. -/
def FMOD_Studio_Bank_GetLoadingState (b : BankLoadNative) :
    FMOD_RESULT × Nat :=
  (.ok, b.metadataState.toRaw)

/-- Modelled from the spec: `FMOD_Studio_Bank_GetSampleLoadingState`
(native engine, external) reports the bank's sample-data load machine,
which "only advances once `load_sample_data` has been explicitly
requested; querying it beforehand reports `Unloaded`". -/
def FMOD_Studio_Bank_GetSampleLoadingState (b : BankLoadNative) :
    FMOD_RESULT × Nat :=
  (.ok, b.sampleState.toRaw)

/-- Embedding of `Bank::get_loading_state` (src/fmod-oxide/src/studio/bank.rs lines
45–51): `FMOD_Studio_Bank_GetLoadingState` into an out-parameter, then
`LoadingState::try_from_ffi(loading_state, error)`. -/
def Bank.get_loading_state (b : BankLoadNative) :
    Except FMOD_RESULT LoadingState :=
  let call := FMOD_Studio_Bank_GetLoadingState b
  LoadingState.try_from_ffi call.2 call.1.to_error

/-- Embedding of `Bank::get_sample_loading_state` (src/fmod-oxide/src/studio/bank.rs
lines 72–77).  NOTE: the source body invokes
`FMOD_Studio_Bank_GetLoadingState` — the very same native entry point as
`get_loading_state` — not `FMOD_Studio_Bank_GetSampleLoadingState`; the
embedding reproduces that call faithfully. -/
def Bank.get_sample_loading_state (b : BankLoadNative) :
    Except FMOD_RESULT LoadingState :=
  let call := FMOD_Studio_Bank_GetLoadingState b
  LoadingState.try_from_ffi call.2 call.1.to_error

/-! ## Bank unload -/

/-- The native entry points a `Bank` operation might invoke. -/
inductive NativeFn where
  | bankUnload
  | bankGetUserData
  | bankSetUserData
  deriving DecidableEq, Repr

/-- Observable effects of a `Bank` operation: native calls and
userdata-side-table accesses, in order. -/
inductive Effect where
  | nativeCall (f : NativeFn)
  | userdataTableRead
  | userdataTableWrite
  deriving DecidableEq, Repr

/-- Whether an effect is a call into the native engine. -/
def Effect.isNativeCall : Effect → Bool
  | .nativeCall _ => true
  | .userdataTableRead => false
  | .userdataTableWrite => false

/-- Whether an effect reads or mutates the userdata side table. -/
def Effect.isTableOp : Effect → Bool
  | .nativeCall _ => false
  | .userdataTableRead => true
  | .userdataTableWrite => true

/-- Embedding of `Bank::unload` (src/fmod-oxide/src/studio/bank.rs lines 85–88): a
single call `FMOD_Studio_Bank_Unload(self.inner).to_result()`; the source
comment notes "we don't deallocate userdata here because the system
callback will take care of that for us". -/
def Bank.unload (unloadResult : FMOD_RESULT) :
    Except FMOD_RESULT Unit × List Effect :=
  (unloadResult.to_result, [.nativeCall .bankUnload])

/-! ## Dsp release -/

/-- Embedding of `Dsp::release` (src/fmod-oxide/src/core/dsp/general.rs lines 27–29):
`FMOD_DSP_Release(self.inner).to_result()` — the native status code,
whatever it is, mapped directly by the Result Mapper. -/
def Dsp.release (nativeResult : FMOD_RESULT) : Except FMOD_RESULT Unit :=
  nativeResult.to_result

/-! ## Userdata association table and Geometry -/

/-- The process-wide userdata side table: associations from the native
userdata pointer value (the key, a nonzero `Nat`; `0` is the null pointer)
to the caller's data (abstracted to `Nat`). -/
abbrev UserdataTable := List (Nat × Nat)

/-- Modelled from the spec: `crate::userdata::remove_userdata` (the
userdata module is not under the sources provided; only its callers are) —
"remove(key)" deletes the association keyed by the native userdata pointer
value. -/
def remove_userdata (t : UserdataTable) (key : Nat) : UserdataTable :=
  t.filter (fun e => ¬e.1 = key)

/-- Modelled from the spec: `crate::userdata::get_userdata` — "get(key) ->
Option<data>". -/
def get_userdata (t : UserdataTable) (key : Nat) : Option Nat :=
  (t.find? (fun e => e.1 = key)).map (fun e => e.2)

/-- Modelled from the spec: `crate::userdata::set_userdata` — "set(key,
data)" overwrites the data of an existing association. -/
def set_userdata (t : UserdataTable) (key data : Nat) : UserdataTable :=
  t.map (fun e => if e.1 = key then (key, data) else e)

/-- A key not yet used by the table and distinct from the null pointer. -/
def freshKey (t : UserdataTable) : Nat :=
  (t.map (fun e => e.1)).foldr max 0 + 1

/-- Modelled from the spec: `crate::userdata::insert_userdata` —
"insert(data, owner_handle) -> key" stores the data under a fresh key and
returns the key. -/
def insert_userdata (t : UserdataTable) (data : Nat) : Nat × UserdataTable :=
  let key := freshKey t
  (key, (key, data) :: t)

/-- The wrapper-visible state a `Geometry` userdata operation touches: the
object's native userdata slot (`0` = null) and the process-wide side
table. -/
structure GeometryState where
  slot : Nat
  table : UserdataTable
  deriving DecidableEq, Repr

/-- Stub status codes for the native calls a `Geometry` userdata operation
makes (`FMOD_Geometry_GetUserData`, `FMOD_Geometry_Release`,
`FMOD_Geometry_SetUserData`). -/
structure GeoNative where
  getUserDataResult : FMOD_RESULT
  releaseResult : FMOD_RESULT
  setUserDataResult : FMOD_RESULT
  deriving Repr

/-- The individual steps of a `Geometry` operation, in execution order. -/
inductive GeoEffect where
  | getRawUserdata
  | nativeRelease
  | removeUserdataOp (key : Nat)
  | setRawUserdata (value : Nat)
  deriving DecidableEq, Repr

/-- Embedding of `Geometry::release` (src/fmod-oxide/src/core/geometry/general.rs lines
96–113, `userdata-abstraction` feature enabled): read the raw userdata
pointer (`self.get_raw_userdata()?`) BEFORE the native release, then
`FMOD_Geometry_Release(..).to_result()?`, then — if the captured pointer
is not null — `remove_userdata(userdata)` followed by
`self.set_raw_userdata(null)?`.  Returns the final state, the outcome, and
the executed steps in order. -/
def Geometry.release (s : GeometryState) (n : GeoNative) :
    GeometryState × Except FMOD_RESULT Unit × List GeoEffect :=
  match n.getUserDataResult.to_result with
  | .error e => (s, .error e, [.getRawUserdata])
  | .ok _ =>
    let userdata := s.slot
    match n.releaseResult.to_result with
    | .error e => (s, .error e, [.getRawUserdata, .nativeRelease])
    | .ok _ =>
      if ¬userdata = 0 then
        let s1 : GeometryState := { s with table := remove_userdata s.table userdata }
        match n.setUserDataResult.to_result with
        | .error e =>
          (s1, .error e,
            [.getRawUserdata, .nativeRelease, .removeUserdataOp userdata,
              .setRawUserdata 0])
        | .ok _ =>
          ({ s1 with slot := 0 }, .ok (),
            [.getRawUserdata, .nativeRelease, .removeUserdataOp userdata,
              .setRawUserdata 0])
      else (s, .ok (), [.getRawUserdata, .nativeRelease])

/-- Embedding of `Geometry::set_userdata` (src/fmod-oxide/src/core/geometry/general.rs
lines 135–147): `let pointer = self.get_raw_userdata()?`; if the pointer
is null, `let key = insert_userdata(userdata, *self)` followed by
`self.set_raw_userdata(key.into())?`; otherwise
`set_userdata(pointer.into(), userdata)`.  Returns the final state, the
outcome, and the sequence of states the operation passes through (initial
state, then the state after each mutation, in execution order). -/
def Geometry.set_userdata (s : GeometryState) (n : GeoNative)
    (userdata : Nat) :
    GeometryState × Except FMOD_RESULT Unit × List GeometryState :=
  match n.getUserDataResult.to_result with
  | .error e => (s, .error e, [s])
  | .ok _ =>
    let pointer := s.slot
    if pointer = 0 then
      let inserted := insert_userdata s.table userdata
      let s1 : GeometryState := { s with table := inserted.2 }
      match n.setUserDataResult.to_result with
      | .error e => (s1, .error e, [s, s1])
      | .ok _ =>
        let s2 : GeometryState := { s1 with slot := inserted.1 }
        (s2, .ok (), [s, s1, s2])
    else
      let s1 : GeometryState := { s with table := Fmod.set_userdata s.table pointer userdata }
      (s1, .ok (), [s, s1])

/-- The slot/table consistency property of a `GeometryState`: a non-null
native userdata slot holds a key present in the side table. -/
def GeometryState.slotConsistent (s : GeometryState) : Prop :=
  ¬s.slot = 0 → s.slot ∈ s.table.map (fun e => e.1)

instance (s : GeometryState) : Decidable s.slotConsistent := by
  unfold GeometryState.slotConsistent
  infer_instance

/-! ## EventDescription instance list -/

/-- Stub for the native side of one count-then-list query pair on an
`EventDescription`. -/
structure ListNative where
  count : CountCall
  fill : FillCall
  deriving Repr

/-- Embedding of `EventDescription::instance_count`
(src/fmod-rs/src/studio/event/description.rs lines 60–66):
`FMOD_Studio_EventDescription_GetInstanceCount` checked with
`to_result()?`, then the out-parameter returned. -/
def EventDescription.instance_count (l : ListNative) :
    Except FMOD_RESULT Nat :=
  match l.count.result.to_result with
  | .error e => .error e
  | .ok _ => .ok l.count.value

/-- Embedding of `EventDescription::get_instance_list`
(src/fmod-rs/src/studio/event/description.rs lines 68–92):
`let expected_count = self.instance_count()?`, then the fill phase around
`FMOD_Studio_EventDescription_GetInstanceList`. -/
def EventDescription.get_instance_list (l : ListNative)
    (debugAssertions : Bool) : ListQueryRun :=
  match EventDescription.instance_count l with
  | .error e => ⟨.err e, none⟩
  | .ok expected_count => listFillPhase l.fill expected_count debugAssertions

/-! ## Properties of two-phase runs -/

/-- A run of a two-phase getter consumed the truncation signal: the fill
call was performed, and any error the caller sees is the fill call's own
status code — in particular, never the discovery call's truncation
signal. -/
def truncationConsumed {α : Type} (run : Outcome α × List PhaseCall)
    (n : StringNative) : Prop :=
  run.2 = [.discoverCall, .fillCall] ∧
    ∀ e, run.1 = .err e → e = n.fillResult ∧ ¬n.fillResult = .ok

/-- A run of a two-phase getter short-circuited at discovery: the
discovery call's error is returned exactly, and the fill call is never
invoked. -/
def shortCircuited {α : Type} (run : Outcome α × List PhaseCall)
    (e : FMOD_RESULT) : Prop :=
  run.1 = .err e ∧ run.2 = [.discoverCall]

/-- On success a two-phase string getter returns the buffer of exactly the
discovery-reported length (which includes the native NUL terminator), byte
for byte as the native fill wrote it — in particular the final NUL byte is
not stripped. -/
def returnsUnstrippedBuffer (run : Outcome (List Nat) × List PhaseCall)
    (n : StringNative) : Prop :=
  ∀ bytes, run.1 = .ok bytes →
    bytes.length = n.discoverLen ∧
    (n.fillBytes.length = n.discoverLen →
      bytes = n.fillBytes ∧
        (n.fillBytes.getLast? = some 0 → bytes.getLast? = some 0))

/-! ## Helper lemmas -/

theorem writeInto_length (buf written : List Nat) :
    (writeInto buf written).length = buf.length := by
  unfold writeInto
  rw [List.length_append, List.length_take, List.length_drop]
  omega

theorem writeInto_full (buf written : List Nat)
    (h : written.length = buf.length) : writeInto buf written = written := by
  unfold writeInto
  rw [← h, List.take_length, h, List.drop_length, List.append_nil]

theorem stringFillPhase_truncationConsumed (n : StringNative) (d : Bool) :
    truncationConsumed (stringFillPhase n d) n := by
  unfold truncationConsumed stringFillPhase FMOD_RESULT.to_result
  by_cases h : n.fillResult = .ok <;>
    by_cases hd : d = true ∧ ¬n.discoverLen = n.fillLen <;>
    simp_all <;> split <;> simp_all

theorem stringFillPhase_ok (n : StringNative) (d : Bool) (bytes : List Nat)
    (h : (stringFillPhase n d).1 = .ok bytes) :
    bytes = writeInto (List.replicate n.discoverLen 0) n.fillBytes := by
  unfold stringFillPhase FMOD_RESULT.to_result at h
  split at h <;> simp_all
  split at h <;> simp_all

theorem stringFillPhase_mismatch_panics (n : StringNative)
    (hf : n.fillResult = .ok) (hm : ¬n.discoverLen = n.fillLen) :
    (stringFillPhase n true).1 = .panic := by
  simp [stringFillPhase, FMOD_RESULT.to_result, hf, hm]

theorem twoPhaseString_truncated (n : StringNative) (d : Bool)
    (h : n.discoverResult = .errTruncated) :
    twoPhaseString n d = stringFillPhase n d := by
  unfold twoPhaseString FMOD_RESULT.to_error
  rw [h]
  simp

theorem twoPhaseString_discover_ok (n : StringNative) (d : Bool)
    (h : n.discoverResult = .ok) :
    twoPhaseString n d = stringFillPhase n d := by
  unfold twoPhaseString FMOD_RESULT.to_error
  rw [h]
  simp

theorem twoPhaseString_short_circuit (n : StringNative) (d : Bool)
    (h1 : ¬n.discoverResult = .ok) (h2 : ¬n.discoverResult = .errTruncated) :
    twoPhaseString n d = (.err n.discoverResult, [.discoverCall]) := by
  unfold twoPhaseString FMOD_RESULT.to_error
  rw [if_neg h1]
  simp [h2]

theorem twoPhaseString_cases (n : StringNative) (d : Bool) :
    twoPhaseString n d = stringFillPhase n d ∨
      twoPhaseString n d = (.err n.discoverResult, [.discoverCall]) := by
  by_cases h1 : n.discoverResult = .ok
  · exact Or.inl (twoPhaseString_discover_ok n d h1)
  · by_cases h2 : n.discoverResult = .errTruncated
    · exact Or.inl (twoPhaseString_truncated n d h2)
    · exact Or.inr (twoPhaseString_short_circuit n d h1 h2)

theorem twoPhaseString_returnsUnstrippedBuffer (n : StringNative)
    (d : Bool) : returnsUnstrippedBuffer (twoPhaseString n d) n := by
  intro bytes hok
  have hbytes : bytes = writeInto (List.replicate n.discoverLen 0) n.fillBytes := by
    rcases twoPhaseString_cases n d with h | h
    · exact stringFillPhase_ok n d bytes (h ▸ hok)
    · rw [h] at hok
      simp at hok
  subst hbytes
  refine ⟨by rw [writeInto_length, List.length_replicate], fun hlen => ?_⟩
  have hfull : writeInto (List.replicate n.discoverLen 0) n.fillBytes = n.fillBytes :=
    writeInto_full _ _ (by rw [hlen, List.length_replicate])
  rw [hfull]
  exact ⟨rfl, fun h => h⟩

theorem get_string_info_split (n : StringNative) (g : Guid) (d : Bool) :
    (Bank.get_string_info n g d).2 = (twoPhaseString n d).2 ∧
      (∀ e, (Bank.get_string_info n g d).1 = .err e ↔
        (twoPhaseString n d).1 = .err e) ∧
      (∀ gv bytes, (Bank.get_string_info n g d).1 = .ok (gv, bytes) ↔
        gv = g ∧ (twoPhaseString n d).1 = .ok bytes) := by
  unfold Bank.get_string_info
  rcases h : twoPhaseString n d with ⟨o, calls⟩
  cases o <;> simp_all <;> intro gv <;> exact eq_comm

theorem listFillPhase_fillCapacity (fill : FillCall) (expected : Nat)
    (d : Bool) : (listFillPhase fill expected d).fillCapacity = some expected := by
  unfold listFillPhase FMOD_RESULT.to_result
  split <;> simp_all
  split <;> rfl

theorem listFillPhase_mismatch_panics (fill : FillCall) (expected : Nat)
    (hf : fill.result = .ok) (hm : ¬fill.count = expected) :
    (listFillPhase fill expected true).outcome = .panic := by
  simp [listFillPhase, FMOD_RESULT.to_result, hf, hm]

/-! ## Claim theorems -/

/-- C3: for every two-phase string query (`Bank::get_path`,
`Bank::get_string_info`, `System::lookup_path`,
`EventDescription::get_path`, and the parameter-label getters), a
discovery call returning the designated truncation code is never
propagated to the caller as an error and the fill call proceeds; any other
non-success discovery code is returned exactly and immediately, with the
fill call never invoked. -/
theorem claim_C3_truncation_handling (n : StringNative) (d : Bool) (g : Guid) :
    (n.discoverResult = .errTruncated →
      truncationConsumed (Bank.get_path n d) n ∧
      truncationConsumed (System.lookup_path n d) n ∧
      truncationConsumed (EventDescription.get_path n d) n ∧
      truncationConsumed (System.get_parameter_label_by_name n d) n ∧
      truncationConsumed (System.get_parameter_label_by_id n d) n ∧
      truncationConsumed (EventDescription.get_parameter_label_by_name n d) n ∧
      truncationConsumed (EventDescription.get_parameter_label_by_id n d) n ∧
      truncationConsumed (Bank.get_string_info n g d) n) ∧
    (¬n.discoverResult = .ok → ¬n.discoverResult = .errTruncated →
      shortCircuited (Bank.get_path n d) n.discoverResult ∧
      shortCircuited (System.lookup_path n d) n.discoverResult ∧
      shortCircuited (EventDescription.get_path n d) n.discoverResult ∧
      shortCircuited (System.get_parameter_label_by_name n d) n.discoverResult ∧
      shortCircuited (System.get_parameter_label_by_id n d) n.discoverResult ∧
      shortCircuited (EventDescription.get_parameter_label_by_name n d) n.discoverResult ∧
      shortCircuited (EventDescription.get_parameter_label_by_id n d) n.discoverResult ∧
      shortCircuited (Bank.get_string_info n g d) n.discoverResult) := by
  constructor
  · intro h
    have hc : truncationConsumed (twoPhaseString n d) n :=
      (twoPhaseString_truncated n d h) ▸ stringFillPhase_truncationConsumed n d
    have hg : truncationConsumed (Bank.get_string_info n g d) n := by
      obtain ⟨h2, herr, -⟩ := get_string_info_split n g d
      exact ⟨h2.trans hc.1, fun e he => hc.2 e ((herr e).mp he)⟩
    exact ⟨hc, hc, hc, hc, hc, hc, hc, hg⟩
  · intro h1 h2
    have heq := twoPhaseString_short_circuit n d h1 h2
    have hc : shortCircuited (twoPhaseString n d) n.discoverResult := by
      rw [shortCircuited, heq]
      exact ⟨rfl, rfl⟩
    have hg : shortCircuited (Bank.get_string_info n g d) n.discoverResult := by
      obtain ⟨hcall, herr, -⟩ := get_string_info_split n g d
      exact ⟨(herr _).mpr hc.1, hcall.trans hc.2⟩
    exact ⟨hc, hc, hc, hc, hc, hc, hc, hg⟩

/-- Witness for C3 at concrete stubs: a truncated discovery proceeds to
the fill call of `Bank::get_path`, and an invalid-handle discovery makes
`System::lookup_path` short-circuit. -/
theorem claim_C3_truncation_handling_witness :
    truncationConsumed (Bank.get_path ⟨.errTruncated, 2, .ok, [97, 0], 2⟩ true)
      ⟨.errTruncated, 2, .ok, [97, 0], 2⟩ ∧
    shortCircuited (System.lookup_path ⟨.errInvalidHandle, 0, .ok, [], 0⟩ true)
      .errInvalidHandle :=
  ⟨((claim_C3_truncation_handling ⟨.errTruncated, 2, .ok, [97, 0], 2⟩ true 0).1
      rfl).1,
    ((claim_C3_truncation_handling ⟨.errInvalidHandle, 0, .ok, [], 0⟩ true 0).2
      (by decide) (by decide)).2.1⟩

/-- C4 counterexample: compiled WITHOUT debug assertions (the
`debug_assert_eq!` in the source is a no-op in release builds),
`Bank::get_path` against a native stub whose fill call echoes length 3
after a discovered length of 2 still returns a success value carrying the
filled buffer, so the claim's "in every such execution the operation does
not return a success value" fails. -/
theorem claim_C4_counterexample :
    (Bank.get_path ⟨.errTruncated, 2, .ok, [97, 0, 98], 3⟩ false).1 =
      .ok [97, 0] ∧
    ¬StringNative.fillLen ⟨.errTruncated, 2, .ok, [97, 0, 98], 3⟩ =
      StringNative.discoverLen ⟨.errTruncated, 2, .ok, [97, 0, 98], 3⟩ :=
  ⟨rfl, by decide⟩

/-- C4 (amended): when compiled with debug assertions enabled, every
two-phase string or list query whose fill call succeeds but reports a
size/count different from the one the discovery phase produced panics
(fails loudly) instead of returning the filled buffer; without debug
assertions the check is compiled out. -/
theorem claim_C4_mismatch_asserts (n : StringNative) (b : BankNative)
    (l : ListNative) (g : Guid) :
    ((n.discoverResult = .ok ∨ n.discoverResult = .errTruncated) →
      n.fillResult = .ok → ¬n.discoverLen = n.fillLen →
      (Bank.get_path n true).1 = .panic ∧
      (System.lookup_path n true).1 = .panic ∧
      (EventDescription.get_path n true).1 = .panic ∧
      (System.get_parameter_label_by_name n true).1 = .panic ∧
      (System.get_parameter_label_by_id n true).1 = .panic ∧
      (EventDescription.get_parameter_label_by_name n true).1 = .panic ∧
      (EventDescription.get_parameter_label_by_id n true).1 = .panic ∧
      (Bank.get_string_info n g true).1 = .panic) ∧
    (b.getBusCount.result = .ok → b.getBusList.result = .ok →
      ¬b.getBusList.count = b.getBusCount.value →
      (Bank.get_bus_list b true).outcome = .panic) ∧
    (b.getEventCount.result = .ok → b.getEventList.result = .ok →
      ¬b.getEventList.count = b.getEventCount.value →
      (Bank.get_event_list b true).outcome = .panic) ∧
    (b.getEventCount.result = .ok → b.getVCAList.result = .ok →
      ¬b.getVCAList.count = b.getEventCount.value →
      (Bank.get_vca_list b true).outcome = .panic) ∧
    (l.count.result = .ok → l.fill.result = .ok →
      ¬l.fill.count = l.count.value →
      (EventDescription.get_instance_list l true).outcome = .panic) := by
  refine ⟨?_, ?_, ?_, ?_, ?_⟩
  · intro hd hf hm
    have he : twoPhaseString n true = stringFillPhase n true := by
      rcases hd with h | h
      · exact twoPhaseString_discover_ok n true h
      · exact twoPhaseString_truncated n true h
    have hp : (twoPhaseString n true).1 = .panic := by
      rw [he]
      exact stringFillPhase_mismatch_panics n hf hm
    have hg : (Bank.get_string_info n g true).1 = .panic := by
      unfold Bank.get_string_info
      rcases hq : twoPhaseString n true with ⟨o, calls⟩
      rw [hq] at hp
      cases o <;> simp_all
    exact ⟨hp, hp, hp, hp, hp, hp, hp, hg⟩
  · intro h1 h2 hm
    simp only [Bank.get_bus_list, Bank.bus_count, FMOD_RESULT.to_result,
      if_pos h1]
    exact listFillPhase_mismatch_panics _ _ h2 hm
  · intro h1 h2 hm
    simp only [Bank.get_event_list, Bank.event_count, FMOD_RESULT.to_result,
      if_pos h1]
    exact listFillPhase_mismatch_panics _ _ h2 hm
  · intro h1 h2 hm
    simp only [Bank.get_vca_list, Bank.event_count, FMOD_RESULT.to_result,
      if_pos h1]
    exact listFillPhase_mismatch_panics _ _ h2 hm
  · intro h1 h2 hm
    simp only [EventDescription.get_instance_list,
      EventDescription.instance_count, FMOD_RESULT.to_result, if_pos h1]
    exact listFillPhase_mismatch_panics _ _ h2 hm

/-- Witness for the amended C4 at concrete stubs: with debug assertions a
string-length mismatch panics in `Bank::get_path`, and a bus-count
mismatch panics in `Bank::get_bus_list`. -/
theorem claim_C4_mismatch_asserts_witness :
    (Bank.get_path ⟨.errTruncated, 2, .ok, [97, 0, 98], 3⟩ true).1 = .panic ∧
    (Bank.get_bus_list
        ⟨⟨.ok, 3⟩, ⟨.ok, 0⟩, ⟨.ok, 0⟩, ⟨.ok, [7, 8], 2⟩, ⟨.ok, [], 0⟩,
          ⟨.ok, [], 0⟩⟩ true).outcome = .panic :=
  ⟨((claim_C4_mismatch_asserts ⟨.errTruncated, 2, .ok, [97, 0, 98], 3⟩
      ⟨⟨.ok, 0⟩, ⟨.ok, 0⟩, ⟨.ok, 0⟩, ⟨.ok, [], 0⟩, ⟨.ok, [], 0⟩, ⟨.ok, [], 0⟩⟩
      ⟨⟨.ok, 0⟩, ⟨.ok, [], 0⟩⟩ 0).1 (Or.inr rfl) rfl (by decide)).1,
    (claim_C4_mismatch_asserts ⟨.errTruncated, 2, .ok, [97, 0, 98], 3⟩
      ⟨⟨.ok, 3⟩, ⟨.ok, 0⟩, ⟨.ok, 0⟩, ⟨.ok, [7, 8], 2⟩, ⟨.ok, [], 0⟩,
        ⟨.ok, [], 0⟩⟩
      ⟨⟨.ok, 0⟩, ⟨.ok, [], 0⟩⟩ 0).2.1 rfl rfl (by decide)⟩

/-- C9: on success every two-phase string getter returns the buffer of
exactly the discovery-reported byte length (which includes the native NUL
terminator), byte for byte as the native fill wrote it; in particular when
the native fill wrote a NUL-terminated string filling the buffer, the
returned bytes end in the NUL terminator — nothing is stripped. -/
theorem claim_C9_unstripped (n : StringNative) (d : Bool) (g : Guid) :
    returnsUnstrippedBuffer (Bank.get_path n d) n ∧
    returnsUnstrippedBuffer (System.lookup_path n d) n ∧
    returnsUnstrippedBuffer (EventDescription.get_path n d) n ∧
    returnsUnstrippedBuffer (System.get_parameter_label_by_name n d) n ∧
    returnsUnstrippedBuffer (System.get_parameter_label_by_id n d) n ∧
    returnsUnstrippedBuffer (EventDescription.get_parameter_label_by_name n d) n ∧
    returnsUnstrippedBuffer (EventDescription.get_parameter_label_by_id n d) n ∧
    (∀ gv bytes, (Bank.get_string_info n g d).1 = .ok (gv, bytes) →
      bytes.length = n.discoverLen ∧
      (n.fillBytes.length = n.discoverLen → bytes = n.fillBytes ∧
        (n.fillBytes.getLast? = some 0 → bytes.getLast? = some 0))) := by
  have hu := twoPhaseString_returnsUnstrippedBuffer n d
  refine ⟨hu, hu, hu, hu, hu, hu, hu, ?_⟩
  intro gv bytes hok
  obtain ⟨-, -, hoks⟩ := get_string_info_split n g d
  exact hu bytes ((hoks gv bytes).mp hok).2

/-- Witness for C9 at a concrete stub: the returned bytes have exactly the
discovered length and end in the NUL byte. -/
theorem claim_C9_unstripped_witness :
    ([97, 0] : List Nat).length =
      StringNative.discoverLen ⟨.errTruncated, 2, .ok, [97, 0], 2⟩ ∧
    ([97, 0] : List Nat).getLast? = some 0 :=
  ⟨((claim_C9_unstripped ⟨.errTruncated, 2, .ok, [97, 0], 2⟩ true 0).1
      [97, 0] rfl).1,
    ((((claim_C9_unstripped ⟨.errTruncated, 2, .ok, [97, 0], 2⟩ true 0).1
      [97, 0] rfl).2 rfl).2 rfl)⟩

/-- C1 (code bug): at a bank whose metadata machine is `Loaded` and whose
sample-data machine is `Unloaded`, `Bank::get_sample_loading_state`
returns `Loaded`, not `Unloaded` — the source body invokes
`FMOD_Studio_Bank_GetLoadingState`, the same native entry point as
`Bank::get_loading_state`, although the native sample-data query (and the
function's own documentation) reports `Unloaded`. -/
theorem claim_C1_failing_input :
    Bank.get_loading_state ⟨.loaded, .unloaded⟩ = .ok .loaded ∧
    Bank.get_sample_loading_state ⟨.loaded, .unloaded⟩ = .ok .loaded ∧
    (FMOD_Studio_Bank_GetSampleLoadingState ⟨.loaded, .unloaded⟩).2 =
      LoadingState.unloaded.toRaw ∧
    ¬Bank.get_sample_loading_state ⟨.loaded, .unloaded⟩ = .ok .unloaded := by
  refine ⟨rfl, rfl, rfl, fun h => ?_⟩
  rw [show Bank.get_sample_loading_state ⟨.loaded, .unloaded⟩ =
    .ok .loaded from rfl] at h
  exact absurd (Except.ok.inj h) (by decide)

/-- C2 (code bug): `Bank::get_vca_list` discovers with
`self.event_count()`, not `self.vca_count()`.  At a bank with 2 events and
3 VCAs it passes capacity 2 to the native fill call and returns 2 handles
although `Bank::vca_count` reports 3; and at a bank with 3 events and 2
VCAs, the count echoed by a contract-conforming native fill (2) differs
from the expected count (3), so the code's own debug assertion fires on a
valid bank. -/
theorem claim_C2_failing_input :
    Bank.vca_count
      ⟨⟨.ok, 0⟩, ⟨.ok, 2⟩, ⟨.ok, 3⟩, ⟨.ok, [], 0⟩, ⟨.ok, [5, 6], 2⟩,
        ⟨.ok, [10, 11], 2⟩⟩ = .ok 3 ∧
    (Bank.get_vca_list
      ⟨⟨.ok, 0⟩, ⟨.ok, 2⟩, ⟨.ok, 3⟩, ⟨.ok, [], 0⟩, ⟨.ok, [5, 6], 2⟩,
        ⟨.ok, [10, 11], 2⟩⟩ false).fillCapacity = some 2 ∧
    (Bank.get_vca_list
      ⟨⟨.ok, 0⟩, ⟨.ok, 2⟩, ⟨.ok, 3⟩, ⟨.ok, [], 0⟩, ⟨.ok, [5, 6], 2⟩,
        ⟨.ok, [10, 11], 2⟩⟩ false).outcome = .ok [10, 11] ∧
    (Bank.get_vca_list
      ⟨⟨.ok, 0⟩, ⟨.ok, 3⟩, ⟨.ok, 2⟩, ⟨.ok, [], 0⟩, ⟨.ok, [5, 6, 7], 3⟩,
        ⟨.ok, [10, 11], 2⟩⟩ true).outcome = .panic :=
  ⟨rfl, rfl, rfl, rfl⟩

/-- C5 counterexample: with the pre-release lookup and the native release
both succeeding but the post-release clearing of the native userdata slot
failing, `Geometry::release` returns an error even though the side-table
association has already been removed — refuting "whenever release returns
an error, no userdata side-table mutation has occurred". -/
theorem claim_C5_counterexample :
    (Geometry.release ⟨5, [(5, 42)]⟩ ⟨.ok, .ok, .errInvalidHandle⟩).2.1 =
      .error .errInvalidHandle ∧
    ¬(Geometry.release ⟨5, [(5, 42)]⟩ ⟨.ok, .ok, .errInvalidHandle⟩).1.table =
      [(5, 42)] :=
  ⟨rfl, by decide⟩

/-- C5 (amended): `Geometry::release` captures the userdata pointer before
the native release call — the first step of every run is the raw-userdata
read, and any table removal uses the pre-release slot value — and when the
pre-release lookup or the native release call itself fails, release
returns an error with no side-table mutation; only a failure of the
post-release slot-clearing call leaves the association already removed. -/
theorem claim_C5_release_order (s : GeometryState) (n : GeoNative) :
    ((Geometry.release s n).2.2).head? = some .getRawUserdata ∧
    (∀ k, GeoEffect.removeUserdataOp k ∈ (Geometry.release s n).2.2 →
      k = s.slot) ∧
    ((¬n.getUserDataResult = .ok ∨ ¬n.releaseResult = .ok) →
      (Geometry.release s n).1 = s ∧
        ∃ e, (Geometry.release s n).2.1 = .error e) := by
  unfold Geometry.release FMOD_RESULT.to_result
  by_cases h1 : n.getUserDataResult = .ok <;>
    by_cases h2 : n.releaseResult = .ok <;>
    by_cases h3 : n.setUserDataResult = .ok <;>
    by_cases h4 : s.slot = 0 <;>
    simp_all

/-- Witness for the amended C5: a failing pre-release lookup leaves the
state untouched. -/
theorem claim_C5_release_order_witness :
    (Geometry.release ⟨5, [(5, 42)]⟩ ⟨.errInvalidHandle, .ok, .ok⟩).1 =
      ⟨5, [(5, 42)]⟩ :=
  ((claim_C5_release_order ⟨5, [(5, 42)]⟩ ⟨.errInvalidHandle, .ok, .ok⟩).2.2
    (Or.inl (by decide))).1

/-- C6: `Dsp::release` maps the native release status code directly — `Ok`
exactly on the success code, any other code (in particular the
distinguished still-in-use code `FMOD_ERR_DSP_INUSE`) returned verbatim,
never suppressed, remapped or retried. -/
theorem claim_C6_dsp_release (r : FMOD_RESULT) :
    (Dsp.release r = .ok () ↔ r = .ok) ∧
    (¬r = .ok → Dsp.release r = .error r) ∧
    Dsp.release .errDspInuse = .error .errDspInuse := by
  refine ⟨⟨fun h => ?_, fun h => by simp [Dsp.release, FMOD_RESULT.to_result, h]⟩,
    fun h => by simp [Dsp.release, FMOD_RESULT.to_result, h], rfl⟩
  by_cases hr : r = .ok
  · exact hr
  · simp [Dsp.release, FMOD_RESULT.to_result, hr] at h

/-- Witness for C6: a successful native release maps to `Ok` and a native
still-in-use code is surfaced verbatim. -/
theorem claim_C6_dsp_release_witness :
    Dsp.release .ok = .ok () ∧
    Dsp.release .errDspInuse = .error .errDspInuse :=
  ⟨(claim_C6_dsp_release .ok).1.mpr rfl,
    (claim_C6_dsp_release .errDspInuse).2.1 (by decide)⟩

/-- C7: `Bank::unload` performs exactly one native call — the native
bank-unload entry point — and neither reads nor mutates the userdata side
table or the native userdata slot, whatever the native status code. -/
theorem claim_C7_unload_effects (r : FMOD_RESULT) :
    (Bank.unload r).2 = [.nativeCall .bankUnload] ∧
    ((Bank.unload r).2.filter Effect.isNativeCall).length = 1 ∧
    (Bank.unload r).2.filter Effect.isTableOp = [] :=
  ⟨rfl, rfl, rfl⟩

/-- C8: in `Geometry::set_userdata`, starting from a null native userdata
slot, the key returned by the table insert is placed in the table before
it is written into the native slot: every state the operation passes
through keeps any non-null slot pointing at a key present in the side
table. -/
theorem claim_C8_insert_before_slot_write (s : GeometryState) (n : GeoNative)
    (u : Nat) (h : s.slot = 0) :
    ∀ st ∈ (Geometry.set_userdata s n u).2.2, st.slotConsistent := by
  intro st hst
  unfold Geometry.set_userdata FMOD_RESULT.to_result at hst
  by_cases h1 : n.getUserDataResult = .ok <;>
    by_cases h3 : n.setUserDataResult = .ok <;>
    simp_all [insert_userdata] <;>
    rcases hst with rfl | rfl | rfl <;>
    simp [GeometryState.slotConsistent, h]

/-- Witness for C8: a run from an empty table and null slot ends in a
consistent state. -/
theorem claim_C8_insert_before_slot_write_witness :
    ((Geometry.set_userdata ⟨0, []⟩ ⟨.ok, .ok, .ok⟩ 7).1).slotConsistent :=
  claim_C8_insert_before_slot_write ⟨0, []⟩ ⟨.ok, .ok, .ok⟩ 7 rfl _ (by decide)

/-- C10: the fmod-rs conversion from a raw native loading-state integer to
`LoadingState` is partial — every value outside the five defined
enumeration values (0–4) panics rather than producing any typed error
result. -/
theorem claim_C10_partial_conversion (v : Nat) (h : ¬v < 5) :
    LoadingState.from_ffi v = .panicked v := by
  unfold LoadingState.from_ffi
  rw [if_neg (by omega), if_neg (by omega), if_neg (by omega),
    if_neg (by omega), if_neg (by omega)]

/-- Witness for C10: the out-of-range raw value 7 panics. -/
theorem claim_C10_partial_conversion_witness :
    LoadingState.from_ffi 7 = .panicked 7 :=
  claim_C10_partial_conversion 7 (by decide)

end Fmod
